import Mathlib

/-!
Verification of the transaction lifecycle and entity factories of the
`pinpayments` Django app (`pinpayments/models.py`) against its specification.

The Python code is shallowly embedded: Django model instances become Lean
structures, `save()` becomes an explicit function returning the mutated
record or a raised error, the database becomes a list of persisted
snapshots, and the gateway client (`PinEnvironment.pin_post`, which lives
outside the modelled sources) becomes an explicit behaviour parameter that
either raises a transport error or returns a raw body together with an
optionally-parsed JSON value.
-/

/-- A parsed JSON value, as returned by the gateway client.  Python `dict`
objects are association lists (first binding wins on lookup, as in the
single-binding dicts the gateway returns); `null` is Python `None`. -/
inductive JVal where
  | s : String → JVal
  | n : Int → JVal
  | b : Bool → JVal
  | null : JVal
  | arr : List JVal → JVal
  | obj : List (String × JVal) → JVal

/-- Python exceptions that the modelled code can raise. -/
inductive PyError where
  | pinError : String → PyError
  | keyError : String → PyError
  | indexError : PyError
  | typeError : PyError
  | attributeError : PyError
  | transportError : PyError
deriving Repr, DecidableEq

/-- The Django settings the models read: `PIN_ENVIRONMENTS` (as the list of
configured environment names) and `PIN_DEFAULT_ENVIRONMENT`. -/
structure PinSettings where
  environments : List String
  defaultEnv : String
deriving Repr, DecidableEq

/-- Python `d[k]` on a parsed JSON value: `KeyError` when the key is absent,
`TypeError` when the value is not a dict. -/
def pyGetItem : JVal → String → Except PyError JVal
  | .obj kvs, k =>
    match kvs.lookup k with
    | some v => .ok v
    | none => .error (.keyError k)
  | _, _ => .error .typeError

/-- Python `k in d.keys()`: `AttributeError` when the value is not a dict
(no `keys` method). -/
def pyHasKey : JVal → String → Except PyError Bool
  | .obj kvs, k => .ok (kvs.lookup k).isSome
  | _, _ => .error .attributeError

/-- Python `d.get(k, None)`: `AttributeError` when the value is not a dict. -/
def pyGetDefault : JVal → String → Except PyError (Option JVal)
  | .obj kvs, k => .ok (kvs.lookup k)
  | _, _ => .error .attributeError

/-- Python `l[i]` for a non-negative index: `IndexError` when the list is too
short, `TypeError` when the value is not a list. -/
def pyIndex : JVal → Nat → Except PyError JVal
  | .arr xs, i =>
    match xs.get? i with
    | some v => .ok v
    | none => .error .indexError
  | _, _ => .error .typeError

/-- Python `str()` as used by `'Failure: \x7b0\x7d'.format(...)`.  The claims
only ever format scalar values; compound values are abbreviated. -/
def JVal.pyStr : JVal → String
  | .s str => str
  | .n i => toString i
  | .b tv => if tv then "True" else "False"
  | .null => "None"
  | .arr _ => "[list]"
  | .obj _ => "[dict]"

/-- Truthiness of a nullable `CharField`: Python `None` and `''` are falsy. -/
def optStrTruthy : Option String → Bool
  | none => false
  | some s => !(s == "")

/-- The fields of the `PinTransaction` Django model.  Values that come back
raw from the gateway JSON are stored as `Option JVal` (the model assigns them
without conversion); `customer_token` holds the token string of the linked
`CustomerToken` row, or `none` for a null foreign key; `date` is an abstract
timestamp. -/
structure PinTransaction where
  date : Option Nat
  environment : String
  amount : ℚ
  fees : ℚ
  description : Option String
  processed : Bool
  succeeded : Bool
  currency : String
  transaction_token : Option JVal
  card_token : Option String
  customer_token : Option String
  pin_response : Option JVal
  ip_address : String
  email_address : String
  card_address1 : Option JVal
  card_address2 : Option JVal
  card_city : Option JVal
  card_state : Option JVal
  card_postcode : Option JVal
  card_country : Option JVal
  card_number : Option JVal
  card_type : Option JVal
  pin_response_text : Option String

/-- `PinTransaction.save`: validates that exactly one of `card_token` /
`customer_token` is truthy, fills in a default environment, checks the
environment is configured, stamps `date` when unset, and returns the record
as written to the database; raising is returning `.error`. -/
def PinTransaction.save (cfg : PinSettings) (now : Nat) (t : PinTransaction) :
    Except PyError PinTransaction :=
  if !(optStrTruthy t.card_token || t.customer_token.isSome) then
    .error (.pinError "Must provide card_token or customer_token")
  else if optStrTruthy t.card_token && t.customer_token.isSome then
    .error (.pinError "Can only provide card_token OR customer_token, not both")
  else
    let t1 := if t.environment = "" then { t with environment := cfg.defaultEnv } else t
    if t1.environment ∈ cfg.environments then
      .ok (if t1.date.isNone then { t1 with date := some now } else t1)
    else
      .error (.pinError "Pin Environment does not exist")

/-- One call to `save()` against an explicit database (list of committed
rows): on success the mutated record is appended, on a raised `PinError`
the database is unchanged. -/
def trySave (cfg : PinSettings) (now : Nat) (t : PinTransaction)
    (db : List PinTransaction) :
    Except PyError PinTransaction × List PinTransaction :=
  match t.save cfg now with
  | .ok t2 => (.ok t2, db ++ [t2])
  | .error e => (.error e, db)

/-- Python `int()` applied to an exact decimal: truncation toward zero. -/
def ratTruncToInt (q : ℚ) : Int := q.num / (q.den : Int)

/-- The form-encoded charge payload built by `process_transaction` before the
network call: `email`, `description`, `amount` in minor units, `currency`,
`ip_address`, and either the card token or the linked customer's token;
accessing `.token` on a null `customer_token` raises `AttributeError`. -/
def chargePayload (t : PinTransaction) : Except PyError (List (String × JVal)) :=
  let base : List (String × JVal) :=
    [("email", .s t.email_address),
     ("description", match t.description with | some d => .s d | none => .null),
     ("amount", .n (ratTruncToInt (t.amount * 100))),
     ("currency", .s t.currency),
     ("ip_address", .s t.ip_address)]
  if optStrTruthy t.card_token then
    .ok (base ++ [("card_token", .s (t.card_token.getD ""))])
  else
    match t.customer_token with
    | some ct => .ok (base ++ [("customer_token", .s ct)])
    | none => .error .attributeError

/-- The tail of the gateway-error branch of `process_transaction`:
`self.transaction_token = response_json.get('charge_token', None)`. -/
def setChargeToken (t : PinTransaction) (j : JVal) :
    Except (PyError × PinTransaction) PinTransaction :=
  match pyGetDefault j "charge_token" with
  | .ok v => .ok { t with transaction_token := v }
  | .error e => .error (e, t)

/-- The success branch of `process_transaction` (`data = response_json['response']`
onward): each field assignment in source order, an exception carrying along the
partially mutated in-memory record. -/
def chargeSuccessUpdate (t : PinTransaction) (j : JVal) :
    Except (PyError × PinTransaction) PinTransaction :=
  match pyGetItem j "response" with
  | .error e => .error (e, t)
  | .ok data =>
    let t := { t with succeeded := true }
    match pyGetItem data "token" with
    | .error e => .error (e, t)
    | .ok tok =>
      let t := { t with transaction_token := some tok }
      match pyGetItem data "total_fees" with
      | .error e => .error (e, t)
      | .ok fv =>
        match fv with
        | .n fee =>
          let t := { t with fees := (fee : ℚ) / 100 }
          match pyGetItem data "status_message" with
          | .error e => .error (e, t)
          | .ok sm =>
            let t := { t with pin_response := some sm }
            match pyGetItem data "card" with
            | .error e => .error (e, t)
            | .ok card =>
              match pyGetItem card "address_line1" with
              | .error e => .error (e, t)
              | .ok v1 =>
                let t := { t with card_address1 := some v1 }
                match pyGetItem card "address_line2" with
                | .error e => .error (e, t)
                | .ok v2 =>
                  let t := { t with card_address2 := some v2 }
                  match pyGetItem card "address_city" with
                  | .error e => .error (e, t)
                  | .ok v3 =>
                    let t := { t with card_city := some v3 }
                    match pyGetItem card "address_state" with
                    | .error e => .error (e, t)
                    | .ok v4 =>
                      let t := { t with card_state := some v4 }
                      match pyGetItem card "address_postcode" with
                      | .error e => .error (e, t)
                      | .ok v5 =>
                        let t := { t with card_postcode := some v5 }
                        match pyGetItem card "address_country" with
                        | .error e => .error (e, t)
                        | .ok v6 =>
                          let t := { t with card_country := some v6 }
                          match pyGetItem card "display_number" with
                          | .error e => .error (e, t)
                          | .ok v7 =>
                            let t := { t with card_number := some v7 }
                            match pyGetItem card "scheme" with
                            | .error e => .error (e, t)
                            | .ok v8 => .ok { t with card_type := some v8 }
        | _ => .error (.typeError, t)

/-- The response-interpretation step of `process_transaction` (the
`if response_json is None / elif 'error' / else` cascade), applied to the
in-memory record after `pin_response_text` has been assigned.  A raised
exception carries the record as mutated so far. -/
def chargeResponseUpdate (t : PinTransaction) (json : Option JVal) :
    Except (PyError × PinTransaction) PinTransaction :=
  match json with
  | none => .ok { t with pin_response := some (.s "Failure.") }
  | some j =>
    match pyHasKey j "error" with
    | .error e => .error (e, t)
    | .ok true =>
      match pyHasKey j "messages" with
      | .error e => .error (e, t)
      | .ok true =>
        match pyGetItem j "messages" with
        | .error e => .error (e, t)
        | .ok msgs =>
          match pyIndex msgs 0 with
          | .error e => .error (e, t)
          | .ok m0 =>
            match pyHasKey m0 "message" with
            | .error e => .error (e, t)
            | .ok true =>
              match pyGetItem m0 "message" with
              | .error e => .error (e, t)
              | .ok msg =>
                setChargeToken
                  { t with pin_response := some (.s ("Failure: " ++ msg.pyStr)) } j
            | .ok false => setChargeToken t j
      | .ok false =>
        match pyGetItem j "error_description" with
        | .error e => .error (e, t)
        | .ok desc =>
          setChargeToken
            { t with pin_response := some (.s ("Failure: " ++ desc.pyStr)) } j
    | .ok false => chargeSuccessUpdate t j

/-- The behaviour of one `pin_env.pin_post('/charges', payload, True)` call:
either a transport-level exception, or a raw body together with the
defensively parsed JSON (`none` when the body is not valid JSON). -/
inductive GWBehavior where
  | raise : GWBehavior
  | respond (text : String) (json : Option JVal) : GWBehavior

/-- The observable outcome of one `process_transaction` call: the final
in-memory record, the database rows committed by its `save()` calls in
order, how many gateway requests were issued, and the returned value
(`.ok none` is Python `return None`; `.error` is an uncaught exception). -/
structure ProcOutcome where
  record : PinTransaction
  saves : List PinTransaction
  networkCalls : Nat
  result : Except PyError (Option JVal)

/-- `PinTransaction.process_transaction`, with the gateway call abstracted by
`g`.  Mirrors the source: guard on `processed`; set `processed`; first
`save()`; build the payload; POST; assign `pin_response_text`; interpret the
response; second `save()`; return `self.pin_response`. -/
def process_transaction (cfg : PinSettings) (now : Nat) (t : PinTransaction)
    (g : GWBehavior) : ProcOutcome :=
  if t.processed then
    { record := t, saves := [], networkCalls := 0, result := .ok none }
  else
    let t1 := { t with processed := true }
    match t1.save cfg now with
    | .error e => { record := t1, saves := [], networkCalls := 0, result := .error e }
    | .ok t2 =>
      match chargePayload t2 with
      | .error e =>
        { record := t2, saves := [t2], networkCalls := 0, result := .error e }
      | .ok _payload =>
        match g with
        | .raise =>
          { record := t2, saves := [t2], networkCalls := 1,
            result := .error .transportError }
        | .respond text json =>
          let t3 := { t2 with pin_response_text := some text }
          match chargeResponseUpdate t3 json with
          | .error (e, t4) =>
            { record := t4, saves := [t2], networkCalls := 1, result := .error e }
          | .ok t4 =>
            match t4.save cfg now with
            | .error e =>
              { record := t4, saves := [t2], networkCalls := 1, result := .error e }
            | .ok t5 =>
              { record := t5, saves := [t2, t5], networkCalls := 1,
                result := .ok t5.pin_response }

/-- Modelled from the spec: the zero-decimal-currency rule of
`pinpayments/utils.py` (not in the modelled sources).  The spec names
Japanese yen as the example zero-decimal currency. -/
def isZeroDecimal (currency : String) : Bool :=
  currency == "JPY"

/-- Modelled from the spec: `get_value` from `pinpayments/utils.py` (not in
the modelled sources).  Zero-decimal currencies return the integer amount
unchanged; every other currency divides by 100 (rendered to two decimal
places by the caller-facing representation). -/
def get_value (amount : Int) (currency : String) : ℚ :=
  if isZeroDecimal currency then (amount : ℚ) else (amount : ℚ) / 100

/-- The fields of the `PinTransfer` Django model that its `value` property
reads, plus its identifying token. -/
structure PinTransfer where
  transfer_token : Option String
  status : Option String
  currency : String
  description : Option String
  amount : Int

/-- The derived read-only `PinTransfer.value` property. -/
def PinTransfer.value (t : PinTransfer) : ℚ :=
  get_value t.amount t.currency

/-- The fields of the `BankAccount` Django model; values copied raw from the
gateway JSON are `JVal`. -/
structure BankAccount where
  token : JVal
  bank_name : JVal
  branch : JVal
  name : JVal
  bsb : JVal
  number : JVal
  environment : String

/-- The fields of the `PinRecipient` Django model; `bank_account` is the
nullable foreign key to the created `BankAccount` row. -/
structure PinRecipient where
  token : JVal
  email : JVal
  name : JVal
  bank_account : Option BankAccount
  environment : String

/-- Modelled from the spec: `PinEnvironment` name resolution
(`pinpayments/objects.py` is not in the modelled sources).  An empty name
falls back to the configured default; an unconfigured name raises a
`PinError`-class failure. -/
def resolveEnvName (cfg : PinSettings) (name : String) : Except PyError String :=
  let n := if name = "" then cfg.defaultEnv else name
  if n ∈ cfg.environments then .ok n
  else .error (.pinError "unknown Pin environment")

/-- Evaluation of the keyword arguments of `BankAccount.objects.create(...)`
in source order; any missing key raises before the row is inserted. -/
def mkBankAccount (envName : String) (ba : JVal) : Except PyError BankAccount :=
  match pyGetItem ba "bank_name" with
  | .error e => .error e
  | .ok bank_name =>
    match pyGetItem ba "branch" with
    | .error e => .error e
    | .ok branch =>
      match pyGetItem ba "bsb" with
      | .error e => .error e
      | .ok bsbv =>
        match pyGetItem ba "name" with
        | .error e => .error e
        | .ok nm =>
          match pyGetItem ba "number" with
          | .error e => .error e
          | .ok number =>
            match pyGetItem ba "token" with
            | .error e => .error e
            | .ok token =>
              .ok { token := token, bank_name := bank_name, branch := branch,
                    name := nm, bsb := bsbv, number := number,
                    environment := envName }

/-- The observable outcome of one `PinRecipient.create_with_bank_account`
call: the `BankAccount` rows and `PinRecipient` rows committed, in order,
and the returned recipient or uncaught exception. -/
structure RecipOutcome where
  bankAccounts : List BankAccount
  recipients : List PinRecipient
  result : Except PyError PinRecipient

/-- `PinRecipient.create_with_bank_account`, with the gateway call abstracted
by `g`.  Mirrors the source: `PinEnvironment()` resolution, one POST,
`data = ...[1]['response']` (subscripting a `None` parse raises `TypeError`),
then `BankAccount.objects.create` followed by `cls.objects.create`; the
keyword arguments of each create are evaluated before that row is inserted. -/
def create_with_bank_account (cfg : PinSettings) (g : GWBehavior)
    (_email _account_name _bsb _number _name : String) : RecipOutcome :=
  match resolveEnvName cfg "" with
  | .error e => { bankAccounts := [], recipients := [], result := .error e }
  | .ok envName =>
    match g with
    | .raise =>
      { bankAccounts := [], recipients := [], result := .error .transportError }
    | .respond _text json =>
      match json with
      | none =>
        { bankAccounts := [], recipients := [], result := .error .typeError }
      | some j =>
        match pyGetItem j "response" with
        | .error e => { bankAccounts := [], recipients := [], result := .error e }
        | .ok data =>
          match pyGetItem data "bank_account" with
          | .error e =>
            { bankAccounts := [], recipients := [], result := .error e }
          | .ok ba =>
            match mkBankAccount envName ba with
            | .error e =>
              { bankAccounts := [], recipients := [], result := .error e }
            | .ok bankRow =>
              match pyGetItem data "token" with
              | .error e =>
                { bankAccounts := [bankRow], recipients := [], result := .error e }
              | .ok tok =>
                match pyGetItem data "email" with
                | .error e =>
                  { bankAccounts := [bankRow], recipients := [],
                    result := .error e }
                | .ok em =>
                  match pyGetItem data "name" with
                  | .error e =>
                    { bankAccounts := [bankRow], recipients := [],
                      result := .error e }
                  | .ok nm =>
                    let recip : PinRecipient :=
                      { token := tok, email := em, name := nm,
                        bank_account := some bankRow, environment := envName }
                    { bankAccounts := [bankRow], recipients := [recip],
                      result := .ok recip }

/-! ### Helper lemmas about `PinTransaction.save` -/

/-- A successful `save` only rewrites `environment` and `date`. -/
lemma save_ok_shape {cfg : PinSettings} {now : Nat} {t r : PinTransaction}
    (h : t.save cfg now = .ok r) :
    r = { t with environment := r.environment, date := r.date } := by
  simp only [PinTransaction.save] at h
  split_ifs at h <;>
    first
      | exact Except.noConfusion h
      | (cases h; rfl)

/-- A successful `save` passed its guards: at least one token truthy, not
both, a configured environment, and a stamped date. -/
lemma save_ok_guards {cfg : PinSettings} {now : Nat} {t r : PinTransaction}
    (h : t.save cfg now = .ok r) :
    (optStrTruthy r.card_token || r.customer_token.isSome) = true ∧
    (optStrTruthy r.card_token && r.customer_token.isSome) = false ∧
    r.environment ∈ cfg.environments ∧ r.date.isSome = true := by
  simp only [PinTransaction.save] at h
  split_ifs at h <;>
    first
      | exact Except.noConfusion h
      | (cases h
         refine ⟨?_, ?_, by simp_all, ?_⟩
         · cases hct : optStrTruthy t.card_token <;>
             simp_all [Option.isSome_iff_ne_none]
         · cases hct : optStrTruthy t.card_token <;>
             simp_all [Option.isSome_iff_ne_none]
         · cases hd : t.date <;> simp_all)

/-- A record that agrees with the output of a successful `save` on the fields
`save` inspects, and whose environment is non-empty, saves again unchanged. -/
lemma save_ok_again {cfg : PinSettings} {now : Nat} {t r : PinTransaction}
    (h : t.save cfg now = .ok r) (hne : r.environment ≠ "")
    (u : PinTransaction) (now2 : Nat)
    (hc : u.card_token = r.card_token) (hk : u.customer_token = r.customer_token)
    (he : u.environment = r.environment) (hd : u.date = r.date) :
    u.save cfg now2 = .ok u := by
  obtain ⟨hg1, hg2, hmem, hdate⟩ := save_ok_guards h
  have hd2 : r.date.isNone = false := by
    cases hu : r.date with
    | none => rw [hu] at hdate; exact absurd hdate (by simp)
    | some d => simp
  unfold PinTransaction.save
  simp [hc, hk, he, hd, hg1, hg2, hd2, hne, hmem]

/-- A record whose tokens pass the one-of-two guard always builds a charge
payload (the customer token is present when the card token is not). -/
lemma chargePayload_ok {t : PinTransaction}
    (h : (optStrTruthy t.card_token || t.customer_token.isSome) = true) :
    ∃ p, chargePayload t = .ok p := by
  unfold chargePayload
  cases hct : optStrTruthy t.card_token with
  | true => exact ⟨_, rfl⟩
  | false =>
    rw [hct] at h
    simp only [Bool.false_or] at h
    cases hcu : t.customer_token with
    | none => rw [hcu] at h; simp at h
    | some ct => exact ⟨_, rfl⟩

/-! ### The in-memory record carried by a raised or returned interpretation -/

/-- The record carried by the result of a response-interpretation step,
whether it returned or raised. -/
def recOf : Except (PyError × PinTransaction) PinTransaction → PinTransaction
  | .ok r => r
  | .error (_, r) => r

lemma setChargeToken_processed (t : PinTransaction) (j : JVal) :
    (recOf (setChargeToken t j)).processed = t.processed := by
  unfold setChargeToken
  repeat' split
  all_goals rfl

lemma chargeSuccessUpdate_processed (t : PinTransaction) (j : JVal) :
    (recOf (chargeSuccessUpdate t j)).processed = t.processed := by
  unfold chargeSuccessUpdate
  repeat' split
  all_goals rfl

lemma chargeResponseUpdate_processed (t : PinTransaction) (json : Option JVal) :
    (recOf (chargeResponseUpdate t json)).processed = t.processed := by
  unfold chargeResponseUpdate
  repeat' split
  all_goals
    first
      | rfl
      | exact chargeSuccessUpdate_processed ..
      | exact (setChargeToken_processed ..).trans rfl

/-! ### Generic facts about `process_transaction` -/

/-- On an already-processed record, `process_transaction` is a no-op: it
returns `None`, issues no request and commits nothing. -/
lemma process_noop (cfg : PinSettings) (now : Nat) (t : PinTransaction)
    (g : GWBehavior) (h : t.processed = true) :
    process_transaction cfg now t g =
      { record := t, saves := [], networkCalls := 0, result := .ok none } := by
  unfold process_transaction
  simp [h]

/-- Whatever happens, the in-memory record left by `process_transaction` has
`processed = true` (either it already did, or the guard body set it before
anything could fail). -/
lemma process_record_processed (cfg : PinSettings) (now : Nat)
    (t : PinTransaction) (g : GWBehavior) :
    (process_transaction cfg now t g).record.processed = true := by
  unfold process_transaction
  by_cases hp : t.processed = true
  · simp [hp]
  · rw [if_neg hp]
    cases hsave : PinTransaction.save cfg now { t with processed := true } with
    | error e => simp [hsave]
    | ok t2 =>
      have ht2 : t2.processed = true := by rw [save_ok_shape hsave]
      cases hpay : chargePayload t2 with
      | error e => simp only [hsave, hpay]; exact ht2
      | ok p =>
        cases g with
        | raise => simp only [hsave, hpay]; exact ht2
        | respond text json =>
          cases hint : chargeResponseUpdate { t2 with pin_response_text := some text } json with
          | error er =>
            obtain ⟨e, t4⟩ := er
            have hfr := chargeResponseUpdate_processed
              { t2 with pin_response_text := some text } json
            rw [hint] at hfr
            simp only [recOf] at hfr
            simp only [hsave, hpay, hint]
            rw [hfr]
            exact ht2
          | ok t4 =>
            have hfr := chargeResponseUpdate_processed
              { t2 with pin_response_text := some text } json
            rw [hint] at hfr
            simp only [recOf] at hfr
            cases hsave2 : PinTransaction.save cfg now t4 with
            | error e2 =>
              simp only [hsave, hpay, hint, hsave2]
              rw [hfr]
              exact ht2
            | ok t5 =>
              have ht5 : t5.processed = true := by
                rw [save_ok_shape hsave2]
                simpa [hfr] using ht2
              simp only [hsave, hpay, hint, hsave2]
              exact ht5

/-- `process_transaction` issues at most one gateway request. -/
lemma process_calls_le_one (cfg : PinSettings) (now : Nat)
    (t : PinTransaction) (g : GWBehavior) :
    (process_transaction cfg now t g).networkCalls ≤ 1 := by
  unfold process_transaction
  by_cases hp : t.processed = true
  · simp [hp]
  · rw [if_neg hp]
    cases hsave : PinTransaction.save cfg now { t with processed := true } with
    | error e => simp [hsave]
    | ok t2 =>
      cases hpay : chargePayload t2 with
      | error e => simp only [hsave, hpay]; simp
      | ok p =>
        cases g with
        | raise => simp only [hsave, hpay]; simp
        | respond text json =>
          cases hint : chargeResponseUpdate { t2 with pin_response_text := some text } json with
          | error er =>
            obtain ⟨e, t4⟩ := er
            simp only [hsave, hpay, hint]; simp
          | ok t4 =>
            cases hsave2 : PinTransaction.save cfg now t4 with
            | error e2 => simp only [hsave, hpay, hint, hsave2]; simp
            | ok t5 => simp only [hsave, hpay, hint, hsave2]; simp

/-- Claim C1: on a record with `processed = true`, `process_transaction`
returns `None` immediately, performs no network call, commits nothing and
leaves every field of the record unchanged; and for any record, two calls in
sequence issue at most one request in total, the second call being a no-op
returning `None`. -/
theorem c1_process_transaction_idempotent (cfg : PinSettings) (now : Nat)
    (t : PinTransaction) (g : GWBehavior) (h : t.processed = true) :
    process_transaction cfg now t g =
      { record := t, saves := [], networkCalls := 0, result := .ok none } ∧
    ∀ (s : PinTransaction) (g1 g2 : GWBehavior) (n1 n2 : Nat),
      (process_transaction cfg n1 s g1).networkCalls ≤ 1 ∧
      (process_transaction cfg n2 (process_transaction cfg n1 s g1).record g2).networkCalls = 0 ∧
      process_transaction cfg n2 (process_transaction cfg n1 s g1).record g2 =
        { record := (process_transaction cfg n1 s g1).record, saves := [],
          networkCalls := 0, result := .ok none } := by
  refine ⟨process_noop cfg now t g h, fun s g1 g2 n1 n2 => ?_⟩
  have h2 := process_noop cfg n2 ((process_transaction cfg n1 s g1).record) g2
    (process_record_processed cfg n1 s g1)
  exact ⟨process_calls_le_one cfg n1 s g1, by rw [h2], h2⟩

/-! ### Concrete fixtures -/

/-- A two-environment configuration with default `test`. -/
def cfg0 : PinSettings :=
  { environments := ["test", "live"], defaultEnv := "test" }

/-- A fresh, valid, unprocessed card-token transaction. -/
def baseTxn : PinTransaction :=
  { date := some 0, environment := "test", amount := 10, fees := 0,
    description := some "a widget", processed := false, succeeded := false,
    currency := "AUD", transaction_token := none,
    card_token := some "card_abc123", customer_token := none,
    pin_response := none, ip_address := "127.0.0.1",
    email_address := "buyer@example.com",
    card_address1 := none, card_address2 := none, card_city := none,
    card_state := none, card_postcode := none, card_country := none,
    card_number := none, card_type := none, pin_response_text := none }

/-- `baseTxn` as committed by the first `save()` of `process_transaction`. -/
def savedTxn : PinTransaction := { baseTxn with processed := true }

/-- An already-processed transaction. -/
def doneTxn : PinTransaction := { baseTxn with processed := true }

theorem c1_witness :
    doneTxn.processed = true ∧
    process_transaction cfg0 0 doneTxn .raise =
      { record := doneTxn, saves := [], networkCalls := 0, result := .ok none } :=
  ⟨rfl, (c1_process_transaction_idempotent cfg0 0 doneTxn .raise rfl).1⟩

/-- Reduction of `process_transaction` on an unprocessed record when the
gateway responds and the interpretation step returns normally. -/
lemma process_respond_ok {cfg : PinSettings} {now : Nat}
    {t r t4 : PinTransaction} {text : String} {json : Option JVal}
    (h1 : t.processed = false)
    (h4 : PinTransaction.save cfg now { t with processed := true } = .ok r)
    (hint : chargeResponseUpdate { r with pin_response_text := some text } json =
      .ok t4)
    (hsave2 : PinTransaction.save cfg now t4 = .ok t4) :
    process_transaction cfg now t (.respond text json) =
      { record := t4, saves := [r, t4], networkCalls := 1,
        result := .ok t4.pin_response } := by
  obtain ⟨p, hp⟩ := chargePayload_ok (save_ok_guards h4).1
  unfold process_transaction
  rw [if_neg (by simp [h1])]
  simp only [h4, hp, hint, hsave2]

/-- Reduction of `process_transaction` on an unprocessed record when the
gateway responds and the interpretation step raises. -/
lemma process_respond_error {cfg : PinSettings} {now : Nat}
    {t r t4 : PinTransaction} {text : String} {json : Option JVal} {e : PyError}
    (h1 : t.processed = false)
    (h4 : PinTransaction.save cfg now { t with processed := true } = .ok r)
    (hint : chargeResponseUpdate { r with pin_response_text := some text } json =
      .error (e, t4)) :
    process_transaction cfg now t (.respond text json) =
      { record := t4, saves := [r], networkCalls := 1, result := .error e } := by
  obtain ⟨p, hp⟩ := chargePayload_ok (save_ok_guards h4).1
  unfold process_transaction
  rw [if_neg (by simp [h1])]
  simp only [h4, hp, hint]

/-- Claim C4: on an unparseable response body, `process_transaction` sets
`pin_response` to `Failure.`, leaves `succeeded = false` and
`processed = true`, persists the record, and returns `Failure.`. -/
theorem c4_unparseable_body (cfg : PinSettings) (now : Nat)
    (t r : PinTransaction) (text : String)
    (h1 : t.processed = false) (h2 : t.succeeded = false)
    (h4 : PinTransaction.save cfg now { t with processed := true } = .ok r)
    (h5 : r.environment ≠ "") :
    process_transaction cfg now t (.respond text none) =
      { record := { r with
                    pin_response_text := some text
                    pin_response := some (.s "Failure.") },
        saves := [r, { r with
                       pin_response_text := some text
                       pin_response := some (.s "Failure.") }],
        networkCalls := 1, result := .ok (some (.s "Failure.")) } ∧
    ({ r with
       pin_response_text := some text
       pin_response := some (JVal.s "Failure.") }).processed = true ∧
    ({ r with
       pin_response_text := some text
       pin_response := some (JVal.s "Failure.") }).succeeded = false := by
  have hr : r.processed = true := by rw [save_ok_shape h4]
  have hsucc : r.succeeded = false := by rw [save_ok_shape h4]; exact h2
  have hint : chargeResponseUpdate { r with pin_response_text := some text } none =
      .ok { r with
            pin_response_text := some text
            pin_response := some (.s "Failure.") } := rfl
  have hsave2 := save_ok_again h4 h5
    { r with
      pin_response_text := some text
      pin_response := some (.s "Failure.") } now rfl rfl rfl rfl
  exact ⟨process_respond_ok h1 h4 hint hsave2, hr, hsucc⟩

theorem c4_witness :
    process_transaction cfg0 0 baseTxn (.respond "not json" none) =
      { record := { savedTxn with
                    pin_response_text := some "not json"
                    pin_response := some (.s "Failure.") },
        saves := [savedTxn,
          { savedTxn with
            pin_response_text := some "not json"
            pin_response := some (.s "Failure.") }],
        networkCalls := 1, result := .ok (some (.s "Failure.")) } ∧
    ({ savedTxn with
       pin_response_text := some "not json"
       pin_response := some (JVal.s "Failure.") }).succeeded = false :=
  have h := c4_unparseable_body cfg0 0 baseTxn savedTxn "not json"
    rfl rfl rfl (by simp [savedTxn, baseTxn])
  ⟨h.1, h.2.2⟩

/-- Claim C2: on an unprocessed record, `process_transaction` commits the
record with `processed = true` before issuing the request, so a transport
exception propagates and leaves the committed record with `processed = true`,
`succeeded = false` and no response text; a later call is a no-op. -/
theorem c2_processed_committed_before_network (cfg : PinSettings) (now : Nat)
    (t r : PinTransaction)
    (h1 : t.processed = false) (h2 : t.succeeded = false)
    (h3 : t.pin_response_text = none)
    (h4 : PinTransaction.save cfg now { t with processed := true } = .ok r) :
    process_transaction cfg now t .raise =
      { record := r, saves := [r], networkCalls := 1,
        result := .error .transportError } ∧
    r.processed = true ∧ r.succeeded = false ∧ r.pin_response_text = none ∧
    r.pin_response = t.pin_response ∧
    ∀ (n2 : Nat) (g2 : GWBehavior),
      process_transaction cfg n2 r g2 =
        { record := r, saves := [], networkCalls := 0, result := .ok none } := by
  have hr : r.processed = true := by rw [save_ok_shape h4]
  have hsucc : r.succeeded = false := by
    rw [save_ok_shape h4]; exact h2
  have htext : r.pin_response_text = none := by
    rw [save_ok_shape h4]; exact h3
  have hresp : r.pin_response = t.pin_response := by
    rw [save_ok_shape h4]
  obtain ⟨p, hp⟩ := chargePayload_ok (save_ok_guards h4).1
  refine ⟨?_, hr, hsucc, htext, hresp,
    fun n2 g2 => process_noop cfg n2 r g2 hr⟩
  unfold process_transaction
  rw [if_neg (by simp [h1])]
  simp only [h4, hp]

theorem c2_witness :
    baseTxn.processed = false ∧
    process_transaction cfg0 0 baseTxn .raise =
      { record := savedTxn, saves := [savedTxn], networkCalls := 1,
        result := .error .transportError } ∧
    savedTxn.processed = true ∧ savedTxn.succeeded = false ∧
    savedTxn.pin_response_text = none :=
  have h := c2_processed_committed_before_network cfg0 0 baseTxn savedTxn
    rfl rfl rfl rfl
  ⟨rfl, h.1, h.2.1, h.2.2.1, h.2.2.2.1⟩

/-- Claim C3 (amended): on a parsed response with a top-level `error` key,
`succeeded` stays false and `transaction_token` is set to the response's
`charge_token` (null when absent); `pin_response` becomes
`Failure: messages[0].message` when a `messages` array exists and its first
element has a `message` field, becomes `Failure: error_description` when no
`messages` key is present, and — unlike the original claim — is left
unchanged when `messages` is present but its first element has no `message`
field. -/
theorem c3_error_branch_amended (cfg : PinSettings) (now : Nat)
    (t r : PinTransaction) (text : String) (j : JVal) (ct : Option JVal)
    (h1 : t.processed = false) (h2 : t.succeeded = false)
    (h4 : PinTransaction.save cfg now { t with processed := true } = .ok r)
    (h5 : r.environment ≠ "")
    (hkerr : pyHasKey j "error" = .ok true)
    (hct : pyGetDefault j "charge_token" = .ok ct) :
    (∀ desc : String,
      pyHasKey j "messages" = .ok false →
      pyGetItem j "error_description" = .ok (.s desc) →
      process_transaction cfg now t (.respond text (some j)) =
        { record := { r with
                      pin_response_text := some text
                      pin_response := some (.s ("Failure: " ++ desc))
                      transaction_token := ct },
          saves := [r, { r with
                         pin_response_text := some text
                         pin_response := some (.s ("Failure: " ++ desc))
                         transaction_token := ct }],
          networkCalls := 1,
          result := .ok (some (.s ("Failure: " ++ desc))) }) ∧
    (∀ (msgs m0 : JVal) (msg : String),
      pyHasKey j "messages" = .ok true →
      pyGetItem j "messages" = .ok msgs →
      pyIndex msgs 0 = .ok m0 →
      pyHasKey m0 "message" = .ok true →
      pyGetItem m0 "message" = .ok (.s msg) →
      process_transaction cfg now t (.respond text (some j)) =
        { record := { r with
                      pin_response_text := some text
                      pin_response := some (.s ("Failure: " ++ msg))
                      transaction_token := ct },
          saves := [r, { r with
                         pin_response_text := some text
                         pin_response := some (.s ("Failure: " ++ msg))
                         transaction_token := ct }],
          networkCalls := 1,
          result := .ok (some (.s ("Failure: " ++ msg))) }) ∧
    (∀ (msgs m0 : JVal),
      pyHasKey j "messages" = .ok true →
      pyGetItem j "messages" = .ok msgs →
      pyIndex msgs 0 = .ok m0 →
      pyHasKey m0 "message" = .ok false →
      process_transaction cfg now t (.respond text (some j)) =
        { record := { r with
                      pin_response_text := some text
                      transaction_token := ct },
          saves := [r, { r with
                         pin_response_text := some text
                         transaction_token := ct }],
          networkCalls := 1, result := .ok r.pin_response }) ∧
    r.succeeded = false := by
  have hsucc : r.succeeded = false := by rw [save_ok_shape h4]; exact h2
  refine ⟨?_, ?_, ?_, hsucc⟩
  · intro desc hkmsg hdesc
    have hint : chargeResponseUpdate { r with pin_response_text := some text }
        (some j) = .ok { r with
                         pin_response_text := some text
                         pin_response := some (.s ("Failure: " ++ desc))
                         transaction_token := ct } := by
      simp only [chargeResponseUpdate, hkerr, hkmsg, hdesc, setChargeToken,
        hct, JVal.pyStr]
    have hsave2 := save_ok_again h4 h5
      { r with
        pin_response_text := some text
        pin_response := some (.s ("Failure: " ++ desc))
        transaction_token := ct } now rfl rfl rfl rfl
    exact process_respond_ok h1 h4 hint hsave2
  · intro msgs m0 msg hkmsg hmsgs hidx hkm hm
    have hint : chargeResponseUpdate { r with pin_response_text := some text }
        (some j) = .ok { r with
                         pin_response_text := some text
                         pin_response := some (.s ("Failure: " ++ msg))
                         transaction_token := ct } := by
      simp only [chargeResponseUpdate, hkerr, hkmsg, hmsgs, hidx, hkm, hm,
        setChargeToken, hct, JVal.pyStr]
    have hsave2 := save_ok_again h4 h5
      { r with
        pin_response_text := some text
        pin_response := some (.s ("Failure: " ++ msg))
        transaction_token := ct } now rfl rfl rfl rfl
    exact process_respond_ok h1 h4 hint hsave2
  · intro msgs m0 hkmsg hmsgs hidx hkm
    have hint : chargeResponseUpdate { r with pin_response_text := some text }
        (some j) = .ok { r with
                         pin_response_text := some text
                         transaction_token := ct } := by
      simp only [chargeResponseUpdate, hkerr, hkmsg, hmsgs, hidx, hkm,
        setChargeToken, hct]
    have hsave2 := save_ok_again h4 h5
      { r with
        pin_response_text := some text
        transaction_token := ct } now rfl rfl rfl rfl
    exact process_respond_ok h1 h4 hint hsave2

/-- A gateway error response whose `messages` array is present with a first
element lacking a `message` field, alongside an `error_description`. -/
def jmix : JVal :=
  .obj [("error", .s "card_declined"),
        ("error_description", .s "Insufficient funds"),
        ("messages", .arr [.obj []])]

/-- Counterexample to claim C3 as stated: with `messages` present but its
first element lacking a `message` field, the code leaves `pin_response`
unset instead of falling back to `Failure: error_description`. -/
theorem c3_counterexample :
    (process_transaction cfg0 0 baseTxn
      (.respond "raw" (some jmix))).record.pin_response = none ∧
    (process_transaction cfg0 0 baseTxn
      (.respond "raw" (some jmix))).record.pin_response ≠
      some (.s "Failure: Insufficient funds") := by
  have h : (process_transaction cfg0 0 baseTxn
      (.respond "raw" (some jmix))).record.pin_response = none := rfl
  exact ⟨h, by rw [h]; simp⟩

/-- A gateway error response with an `error_description` and no `messages`
array. -/
def jdecl : JVal :=
  .obj [("error", .s "card_declined"),
        ("error_description", .s "Insufficient funds")]

theorem c3_witness :
    process_transaction cfg0 0 baseTxn (.respond "raw" (some jdecl)) =
      { record := { savedTxn with
                    pin_response_text := some "raw"
                    pin_response := some (.s "Failure: Insufficient funds")
                    transaction_token := none },
        saves := [savedTxn,
          { savedTxn with
            pin_response_text := some "raw"
            pin_response := some (.s "Failure: Insufficient funds")
            transaction_token := none }],
        networkCalls := 1,
        result := .ok (some (.s "Failure: Insufficient funds")) } ∧
    savedTxn.succeeded = false :=
  have h := c3_error_branch_amended cfg0 0 baseTxn savedTxn "raw" jdecl none
    rfl rfl rfl (by simp [savedTxn, baseTxn]) rfl rfl
  ⟨h.1 "Insufficient funds" rfl rfl, h.2.2.2⟩

/-- Reduction of `process_transaction` on the success branch (no top-level
`error` key, all expected keys present). -/
lemma process_success_reduction (cfg : PinSettings) (now : Nat)
    (t r : PinTransaction) (text : String) (j data card : JVal)
    (tok sm : JVal) (fee : Int) (v1 v2 v3 v4 v5 v6 v7 v8 : JVal)
    (h1 : t.processed = false)
    (h4 : PinTransaction.save cfg now { t with processed := true } = .ok r)
    (h5 : r.environment ≠ "")
    (hkerr : pyHasKey j "error" = .ok false)
    (hresp : pyGetItem j "response" = .ok data)
    (htok : pyGetItem data "token" = .ok tok)
    (hfee : pyGetItem data "total_fees" = .ok (.n fee))
    (hsm : pyGetItem data "status_message" = .ok sm)
    (hcard : pyGetItem data "card" = .ok card)
    (ha1 : pyGetItem card "address_line1" = .ok v1)
    (ha2 : pyGetItem card "address_line2" = .ok v2)
    (ha3 : pyGetItem card "address_city" = .ok v3)
    (ha4 : pyGetItem card "address_state" = .ok v4)
    (ha5 : pyGetItem card "address_postcode" = .ok v5)
    (ha6 : pyGetItem card "address_country" = .ok v6)
    (ha7 : pyGetItem card "display_number" = .ok v7)
    (ha8 : pyGetItem card "scheme" = .ok v8) :
    process_transaction cfg now t (.respond text (some j)) =
      { record := { r with
                    pin_response_text := some text
                    succeeded := true
                    transaction_token := some tok
                    fees := (fee : ℚ) / 100
                    pin_response := some sm
                    card_address1 := some v1
                    card_address2 := some v2
                    card_city := some v3
                    card_state := some v4
                    card_postcode := some v5
                    card_country := some v6
                    card_number := some v7
                    card_type := some v8 },
        saves := [r, { r with
                       pin_response_text := some text
                       succeeded := true
                       transaction_token := some tok
                       fees := (fee : ℚ) / 100
                       pin_response := some sm
                       card_address1 := some v1
                       card_address2 := some v2
                       card_city := some v3
                       card_state := some v4
                       card_postcode := some v5
                       card_country := some v6
                       card_number := some v7
                       card_type := some v8 }],
        networkCalls := 1, result := .ok (some sm) } := by
  have hint : chargeResponseUpdate { r with pin_response_text := some text }
      (some j) = .ok { r with
                       pin_response_text := some text
                       succeeded := true
                       transaction_token := some tok
                       fees := (fee : ℚ) / 100
                       pin_response := some sm
                       card_address1 := some v1
                       card_address2 := some v2
                       card_city := some v3
                       card_state := some v4
                       card_postcode := some v5
                       card_country := some v6
                       card_number := some v7
                       card_type := some v8 } := by
    simp only [chargeResponseUpdate, hkerr, chargeSuccessUpdate, hresp, htok,
      hfee, hsm, hcard, ha1, ha2, ha3, ha4, ha5, ha6, ha7, ha8]
  have hsave2 := save_ok_again h4 h5
    { r with
      pin_response_text := some text
      succeeded := true
      transaction_token := some tok
      fees := (fee : ℚ) / 100
      pin_response := some sm
      card_address1 := some v1
      card_address2 := some v2
      card_city := some v3
      card_state := some v4
      card_postcode := some v5
      card_country := some v6
      card_number := some v7
      card_type := some v8 } now rfl rfl rfl rfl
  exact process_respond_ok h1 h4 hint hsave2

/-- Claim C5: on a success response `process_transaction` sets
`succeeded = true`, copies the token, converts the fee from minor units
exactly (`total_fees 500` gives `fees = 5.00`), copies the status message
and the eight normalized card fields, persists the record and returns the
status message. -/
theorem c5_success_branch (cfg : PinSettings) (now : Nat)
    (t r : PinTransaction) (text : String) (j data card : JVal)
    (tok sm : JVal) (fee : Int) (v1 v2 v3 v4 v5 v6 v7 v8 : JVal)
    (h1 : t.processed = false)
    (h4 : PinTransaction.save cfg now { t with processed := true } = .ok r)
    (h5 : r.environment ≠ "")
    (hkerr : pyHasKey j "error" = .ok false)
    (hresp : pyGetItem j "response" = .ok data)
    (htok : pyGetItem data "token" = .ok tok)
    (hfee : pyGetItem data "total_fees" = .ok (.n fee))
    (hsm : pyGetItem data "status_message" = .ok sm)
    (hcard : pyGetItem data "card" = .ok card)
    (ha1 : pyGetItem card "address_line1" = .ok v1)
    (ha2 : pyGetItem card "address_line2" = .ok v2)
    (ha3 : pyGetItem card "address_city" = .ok v3)
    (ha4 : pyGetItem card "address_state" = .ok v4)
    (ha5 : pyGetItem card "address_postcode" = .ok v5)
    (ha6 : pyGetItem card "address_country" = .ok v6)
    (ha7 : pyGetItem card "display_number" = .ok v7)
    (ha8 : pyGetItem card "scheme" = .ok v8) :
    process_transaction cfg now t (.respond text (some j)) =
      { record := { r with
                    pin_response_text := some text
                    succeeded := true
                    transaction_token := some tok
                    fees := (fee : ℚ) / 100
                    pin_response := some sm
                    card_address1 := some v1
                    card_address2 := some v2
                    card_city := some v3
                    card_state := some v4
                    card_postcode := some v5
                    card_country := some v6
                    card_number := some v7
                    card_type := some v8 },
        saves := [r, { r with
                       pin_response_text := some text
                       succeeded := true
                       transaction_token := some tok
                       fees := (fee : ℚ) / 100
                       pin_response := some sm
                       card_address1 := some v1
                       card_address2 := some v2
                       card_city := some v3
                       card_state := some v4
                       card_postcode := some v5
                       card_country := some v6
                       card_number := some v7
                       card_type := some v8 }],
        networkCalls := 1, result := .ok (some sm) } ∧
    (fee = 500 →
      (process_transaction cfg now t (.respond text (some j))).record.fees = 5) := by
  have heq := process_success_reduction cfg now t r text j data card tok sm fee
    v1 v2 v3 v4 v5 v6 v7 v8 h1 h4 h5 hkerr hresp htok hfee hsm hcard
    ha1 ha2 ha3 ha4 ha5 ha6 ha7 ha8
  refine ⟨heq, fun h500 => ?_⟩
  subst h500
  rw [heq]
  show ((500 : Int) : ℚ) / 100 = 5
  norm_num

/-- A well-formed gateway success response with a 500-minor-unit fee. -/
def jsucc : JVal :=
  .obj [("response", .obj [
    ("token", .s "ch_tok_1"),
    ("total_fees", .n 500),
    ("status_message", .s "Success!"),
    ("card", .obj [
      ("address_line1", .s "1 Test St"),
      ("address_line2", .s ""),
      ("address_city", .s "Melbourne"),
      ("address_state", .s "VIC"),
      ("address_postcode", .s "3000"),
      ("address_country", .s "Australia"),
      ("display_number", .s "XXXX-XXXX-XXXX-0000"),
      ("scheme", .s "visa")])])]

theorem c5_witness :
    (process_transaction cfg0 0 baseTxn
      (.respond "rawsucc" (some jsucc))).record.succeeded = true ∧
    (process_transaction cfg0 0 baseTxn
      (.respond "rawsucc" (some jsucc))).record.fees = 5 ∧
    (process_transaction cfg0 0 baseTxn
      (.respond "rawsucc" (some jsucc))).record.pin_response =
      some (.s "Success!") ∧
    (process_transaction cfg0 0 baseTxn
      (.respond "rawsucc" (some jsucc))).record.transaction_token =
      some (.s "ch_tok_1") ∧
    (process_transaction cfg0 0 baseTxn
      (.respond "rawsucc" (some jsucc))).record.card_city =
      some (.s "Melbourne") ∧
    (process_transaction cfg0 0 baseTxn
      (.respond "rawsucc" (some jsucc))).record.card_type =
      some (.s "visa") ∧
    (process_transaction cfg0 0 baseTxn
      (.respond "rawsucc" (some jsucc))).result = .ok (some (.s "Success!")) := by
  have h := c5_success_branch cfg0 0 baseTxn savedTxn "rawsucc" jsucc
    _ _ _ _ 500 _ _ _ _ _ _ _ _
    rfl rfl (by simp [savedTxn, baseTxn]) rfl rfl rfl rfl rfl rfl
    rfl rfl rfl rfl rfl rfl rfl rfl
  rw [h.1]
  refine ⟨rfl, ?_, rfl, rfl, rfl, rfl, rfl⟩
  show ((500 : Int) : ℚ) / 100 = 5
  norm_num

/-- Claim C10: on the success branch the fee conversion divides by 100 for
every currency, including zero-decimal ones, diverging from the zero-decimal
rule of the money helper: a JPY charge with `total_fees` 500 stores
`fees = 5` while `get_value 500 JPY = 500`. -/
theorem c10_success_fee_division_ignores_currency (cfg : PinSettings)
    (now : Nat) (t r : PinTransaction) (text : String) (j data card : JVal)
    (tok sm : JVal) (fee : Int) (v1 v2 v3 v4 v5 v6 v7 v8 : JVal)
    (h1 : t.processed = false)
    (h4 : PinTransaction.save cfg now { t with processed := true } = .ok r)
    (h5 : r.environment ≠ "")
    (hkerr : pyHasKey j "error" = .ok false)
    (hresp : pyGetItem j "response" = .ok data)
    (htok : pyGetItem data "token" = .ok tok)
    (hfee : pyGetItem data "total_fees" = .ok (.n fee))
    (hsm : pyGetItem data "status_message" = .ok sm)
    (hcard : pyGetItem data "card" = .ok card)
    (ha1 : pyGetItem card "address_line1" = .ok v1)
    (ha2 : pyGetItem card "address_line2" = .ok v2)
    (ha3 : pyGetItem card "address_city" = .ok v3)
    (ha4 : pyGetItem card "address_state" = .ok v4)
    (ha5 : pyGetItem card "address_postcode" = .ok v5)
    (ha6 : pyGetItem card "address_country" = .ok v6)
    (ha7 : pyGetItem card "display_number" = .ok v7)
    (ha8 : pyGetItem card "scheme" = .ok v8) :
    (process_transaction cfg now t (.respond text (some j))).record.fees =
      (fee : ℚ) / 100 ∧
    get_value fee "JPY" = (fee : ℚ) ∧
    (fee ≠ 0 →
      (process_transaction cfg now t (.respond text (some j))).record.fees ≠
        get_value fee "JPY") := by
  have heq := process_success_reduction cfg now t r text j data card tok sm fee
    v1 v2 v3 v4 v5 v6 v7 v8 h1 h4 h5 hkerr hresp htok hfee hsm hcard
    ha1 ha2 ha3 ha4 ha5 ha6 ha7 ha8
  refine ⟨by rw [heq], by simp [get_value, isZeroDecimal], fun hfz => ?_⟩
  rw [heq]
  simp only [get_value, isZeroDecimal]
  simp only [show ("JPY" == "JPY") = true from rfl, if_true]
  show (fee : ℚ) / 100 ≠ (fee : ℚ)
  intro hc
  rw [div_eq_iff (by norm_num : (100 : ℚ) ≠ 0)] at hc
  apply hfz
  have hz : (fee : ℚ) = 0 := by linarith
  exact_mod_cast hz

/-- `baseTxn` denominated in Japanese yen. -/
def jpyTxn : PinTransaction := { baseTxn with currency := "JPY" }

/-- `jpyTxn` as committed by the first `save()` of `process_transaction`. -/
def savedJpyTxn : PinTransaction := { jpyTxn with processed := true }

theorem c10_witness :
    (process_transaction cfg0 0 jpyTxn
      (.respond "rawsucc" (some jsucc))).record.fees = 5 ∧
    get_value 500 "JPY" = 500 ∧
    (process_transaction cfg0 0 jpyTxn
      (.respond "rawsucc" (some jsucc))).record.fees ≠ get_value 500 "JPY" := by
  have h := c10_success_fee_division_ignores_currency cfg0 0 jpyTxn savedJpyTxn
    "rawsucc" jsucc _ _ _ _ 500 _ _ _ _ _ _ _ _
    rfl rfl (by simp [savedJpyTxn, jpyTxn, baseTxn]) rfl rfl rfl rfl rfl rfl
    rfl rfl rfl rfl rfl rfl rfl rfl
  refine ⟨?_, ?_, h.2.2 (by norm_num)⟩
  · rw [h.1]
    norm_num
  · rw [h.2.1]
    norm_num

/-- Claim C6: `PinTransaction.save` raises a `PinError` before any row is
written whenever the card and customer tokens are both empty or both set,
and a row is committed only when exactly one of them is non-empty; on the
error path the stored state is unchanged. -/
theorem c6_save_requires_exactly_one_token (cfg : PinSettings) (now : Nat)
    (t : PinTransaction) (db : List PinTransaction) :
    (optStrTruthy t.card_token = false ∧ t.customer_token = none →
      trySave cfg now t db =
        (.error (.pinError "Must provide card_token or customer_token"), db)) ∧
    (optStrTruthy t.card_token = true ∧ t.customer_token.isSome = true →
      trySave cfg now t db =
        (.error (.pinError
          "Can only provide card_token OR customer_token, not both"), db)) ∧
    ((trySave cfg now t db).2 ≠ db →
      (optStrTruthy t.card_token = true ∧ t.customer_token = none) ∨
      (optStrTruthy t.card_token = false ∧ t.customer_token.isSome = true)) := by
  refine ⟨?_, ?_, ?_⟩
  · rintro ⟨hc, hk⟩
    unfold trySave PinTransaction.save
    simp [hc, hk]
  · rintro ⟨hc, hk⟩
    unfold trySave PinTransaction.save
    simp [hc, hk]
  · intro hne
    cases hsave : t.save cfg now with
    | error e =>
      exfalso
      apply hne
      unfold trySave
      rw [hsave]
    | ok r =>
      have hg1 := (save_ok_guards hsave).1
      have hg2 := (save_ok_guards hsave).2.1
      have hc : r.card_token = t.card_token := by rw [save_ok_shape hsave]
      have hk : r.customer_token = t.customer_token := by
        rw [save_ok_shape hsave]
      rw [hc, hk] at hg1 hg2
      cases hct : optStrTruthy t.card_token with
      | false =>
        right
        rw [hct] at hg1
        simp only [Bool.false_or] at hg1
        exact ⟨rfl, hg1⟩
      | true =>
        left
        rw [hct] at hg2
        simp only [Bool.true_and] at hg2
        cases hcu : t.customer_token with
        | none => exact ⟨rfl, rfl⟩
        | some c => rw [hcu] at hg2; simp at hg2

/-- A transaction with neither a card token nor a customer token. -/
def bothEmptyTxn : PinTransaction := { baseTxn with card_token := none }

theorem c6_witness :
    optStrTruthy bothEmptyTxn.card_token = false ∧
    bothEmptyTxn.customer_token = none ∧
    trySave cfg0 0 bothEmptyTxn [] =
      (.error (.pinError "Must provide card_token or customer_token"), []) :=
  ⟨rfl, rfl,
    (c6_save_requires_exactly_one_token cfg0 0 bothEmptyTxn []).1 ⟨rfl, rfl⟩⟩

/-- Claim C7: the money conversion returns the integer amount unchanged for
zero-decimal currencies and divides by 100 otherwise; in particular
`value(1000, AUD) = 10.00` and `value(1000, JPY) = 1000`; `PinTransfer.value`
is exactly this conversion of `amount` and `currency`. -/
theorem c7_get_value_zero_decimal_rule :
    get_value 1000 "AUD" = 10 ∧ get_value 1000 "JPY" = 1000 ∧
    (∀ (a : Int) (c : String), isZeroDecimal c = true →
      get_value a c = (a : ℚ)) ∧
    (∀ (a : Int) (c : String), isZeroDecimal c = false →
      get_value a c = (a : ℚ) / 100) ∧
    (∀ tr : PinTransfer, tr.value = get_value tr.amount tr.currency) := by
  refine ⟨?_, ?_, ?_, ?_, fun tr => rfl⟩
  · simp only [get_value, show isZeroDecimal "AUD" = false from rfl,
      Bool.false_eq_true, if_false]
    norm_num
  · simp only [get_value, show isZeroDecimal "JPY" = true from rfl, if_true]
    norm_num
  · intro a c h
    simp [get_value, h]
  · intro a c h
    simp [get_value, h]

theorem c7_witness : isZeroDecimal "JPY" = true ∧ get_value 500 "JPY" = 500 := by
  have h := c7_get_value_zero_decimal_rule
  refine ⟨rfl, ?_⟩
  rw [h.2.2.1 500 "JPY" rfl]
  norm_num

/-- Claim C8 (amended): `create_with_bank_account` on a full success response
persists exactly one `BankAccount` row and then one `PinRecipient` row
referencing it, both tagged with the resolved environment; a transport
error, gateway error (no `response` key) or missing `bank_account` key
commits nothing; but — unlike the original claim — a missing top-level
recipient key after a complete `bank_account` object surfaces the failure
with the `BankAccount` row already committed. -/
theorem c8_create_with_bank_account_amended (cfg : PinSettings)
    (envName a1 a2 a3 a4 a5 text : String) (j data ba : JVal)
    (bn br bsbv nmv num batok tok em nm : JVal)
    (h0 : resolveEnvName cfg "" = .ok envName) :
    (create_with_bank_account cfg .raise a1 a2 a3 a4 a5 =
      { bankAccounts := [], recipients := [],
        result := .error .transportError }) ∧
    (∀ er : PyError, pyGetItem j "response" = .error er →
      create_with_bank_account cfg (.respond text (some j)) a1 a2 a3 a4 a5 =
        { bankAccounts := [], recipients := [], result := .error er }) ∧
    (pyGetItem j "response" = .ok data →
     pyGetItem ba "bank_name" = .ok bn →
     pyGetItem ba "branch" = .ok br →
     pyGetItem ba "bsb" = .ok bsbv →
     pyGetItem ba "name" = .ok nmv →
     pyGetItem ba "number" = .ok num →
     pyGetItem ba "token" = .ok batok →
     (∀ er : PyError, pyGetItem data "bank_account" = .error er →
       create_with_bank_account cfg (.respond text (some j)) a1 a2 a3 a4 a5 =
         { bankAccounts := [], recipients := [], result := .error er }) ∧
     (pyGetItem data "bank_account" = .ok ba →
      (pyGetItem data "token" = .ok tok →
       pyGetItem data "email" = .ok em →
       pyGetItem data "name" = .ok nm →
       create_with_bank_account cfg (.respond text (some j)) a1 a2 a3 a4 a5 =
         { bankAccounts := [{ token := batok, bank_name := bn, branch := br,
                              name := nmv, bsb := bsbv, number := num,
                              environment := envName }],
           recipients := [{ token := tok, email := em, name := nm,
                            bank_account := some
                              { token := batok, bank_name := bn, branch := br,
                                name := nmv, bsb := bsbv, number := num,
                                environment := envName },
                            environment := envName }],
           result := .ok { token := tok, email := em, name := nm,
                           bank_account := some
                             { token := batok, bank_name := bn, branch := br,
                               name := nmv, bsb := bsbv, number := num,
                               environment := envName },
                           environment := envName } }) ∧
      (∀ et : PyError, pyGetItem data "token" = .error et →
       create_with_bank_account cfg (.respond text (some j)) a1 a2 a3 a4 a5 =
         { bankAccounts := [{ token := batok, bank_name := bn, branch := br,
                              name := nmv, bsb := bsbv, number := num,
                              environment := envName }],
           recipients := [], result := .error et }))) := by
  refine ⟨?_, ?_, ?_⟩
  · unfold create_with_bank_account
    rw [h0]
  · intro er her
    unfold create_with_bank_account
    rw [h0]
    simp only [her]
  · intro hresp hbn hbr hbsb hnmv hnum hbatok
    have hmk : mkBankAccount envName ba =
        .ok { token := batok, bank_name := bn, branch := br, name := nmv,
              bsb := bsbv, number := num, environment := envName } := by
      simp only [mkBankAccount, hbn, hbr, hbsb, hnmv, hnum, hbatok]
    refine ⟨?_, ?_⟩
    · intro er hba
      unfold create_with_bank_account
      rw [h0]
      simp only [hresp, hba]
    · intro hba
      refine ⟨?_, ?_⟩
      · intro htok hem hnm
        unfold create_with_bank_account
        rw [h0]
        simp only [hresp, hba, hmk, htok, hem, hnm]
      · intro et htok
        unfold create_with_bank_account
        rw [h0]
        simp only [hresp, hba, hmk, htok]

/-- A recipient-creation response whose `bank_account` object is complete but
whose top level lacks the recipient `token` key. -/
def jrecipBad : JVal :=
  .obj [("response", .obj [
    ("email", .s "r@example.com"),
    ("name", .s "R"),
    ("bank_account", .obj [
      ("bank_name", .s "Big Bank"),
      ("branch", .s "Central"),
      ("bsb", .n 123456),
      ("name", .s "R Account"),
      ("number", .s "987654321"),
      ("token", .s "ba_tok_9")])])]

/-- Counterexample to claim C8 as stated: when the recipient `token` key is
missing but the `bank_account` object is complete, the failure surfaces with
one `BankAccount` row already committed — a partial local record. -/
theorem c8_counterexample :
    (create_with_bank_account cfg0 (.respond "raw" (some jrecipBad))
      "r@example.com" "R Account" "123456" "987654321" "R").bankAccounts =
      [{ token := .s "ba_tok_9", bank_name := .s "Big Bank",
         branch := .s "Central", name := .s "R Account", bsb := .n 123456,
         number := .s "987654321", environment := "test" }] ∧
    (create_with_bank_account cfg0 (.respond "raw" (some jrecipBad))
      "r@example.com" "R Account" "123456" "987654321" "R").recipients = [] ∧
    (create_with_bank_account cfg0 (.respond "raw" (some jrecipBad))
      "r@example.com" "R Account" "123456" "987654321" "R").result =
      .error (.keyError "token") :=
  ⟨rfl, rfl, rfl⟩

/-- A complete recipient-creation success response. -/
def jrecipOk : JVal :=
  .obj [("response", .obj [
    ("token", .s "rp_tok_1"),
    ("email", .s "r@example.com"),
    ("name", .s "R"),
    ("bank_account", .obj [
      ("bank_name", .s "Big Bank"),
      ("branch", .s "Central"),
      ("bsb", .n 123456),
      ("name", .s "R Account"),
      ("number", .s "987654321"),
      ("token", .s "ba_tok_9")])])]

theorem c8_witness :
    create_with_bank_account cfg0 (.respond "raw" (some jrecipOk))
      "r@example.com" "R Account" "123456" "987654321" "R" =
      { bankAccounts := [{ token := .s "ba_tok_9", bank_name := .s "Big Bank",
                           branch := .s "Central", name := .s "R Account",
                           bsb := .n 123456, number := .s "987654321",
                           environment := "test" }],
        recipients := [{ token := .s "rp_tok_1", email := .s "r@example.com",
                         name := .s "R",
                         bank_account := some
                           { token := .s "ba_tok_9", bank_name := .s "Big Bank",
                             branch := .s "Central", name := .s "R Account",
                             bsb := .n 123456, number := .s "987654321",
                             environment := "test" },
                         environment := "test" }],
        result := .ok { token := .s "rp_tok_1", email := .s "r@example.com",
                        name := .s "R",
                        bank_account := some
                          { token := .s "ba_tok_9", bank_name := .s "Big Bank",
                            branch := .s "Central", name := .s "R Account",
                            bsb := .n 123456, number := .s "987654321",
                            environment := "test" },
                        environment := "test" } } :=
  have h := c8_create_with_bank_account_amended cfg0 "test"
    "r@example.com" "R Account" "123456" "987654321" "R" "raw"
    jrecipOk (.obj [
      ("token", .s "rp_tok_1"),
      ("email", .s "r@example.com"),
      ("name", .s "R"),
      ("bank_account", .obj [
        ("bank_name", .s "Big Bank"),
        ("branch", .s "Central"),
        ("bsb", .n 123456),
        ("name", .s "R Account"),
        ("number", .s "987654321"),
        ("token", .s "ba_tok_9")])])
    (.obj [
      ("bank_name", .s "Big Bank"),
      ("branch", .s "Central"),
      ("bsb", .n 123456),
      ("name", .s "R Account"),
      ("number", .s "987654321"),
      ("token", .s "ba_tok_9")])
    (.s "Big Bank") (.s "Central") (.n 123456) (.s "R Account")
    (.s "987654321") (.s "ba_tok_9") (.s "rp_tok_1") (.s "r@example.com")
    (.s "R") rfl
  ((h.2.2 rfl rfl rfl rfl rfl rfl rfl).2 rfl).1 rfl rfl rfl

/-- Claim C9 (amended): on an error response whose `messages` key maps to an
empty list, evaluating `messages[0]` raises an uncaught `IndexError` after
`processed = true` has been committed; the raw response text has been
assigned to the in-memory record but — unlike the original claim — was not
committed, so the persisted record has `processed = true`,
`succeeded = false`, `pin_response` unset and no response text. -/
theorem c9_empty_messages_index_error (cfg : PinSettings) (now : Nat)
    (t r : PinTransaction) (text : String) (j : JVal)
    (h1 : t.processed = false) (h2 : t.succeeded = false)
    (h3 : t.pin_response_text = none) (h6 : t.pin_response = none)
    (h4 : PinTransaction.save cfg now { t with processed := true } = .ok r)
    (hkerr : pyHasKey j "error" = .ok true)
    (hkmsg : pyHasKey j "messages" = .ok true)
    (hmsgs : pyGetItem j "messages" = .ok (.arr [])) :
    process_transaction cfg now t (.respond text (some j)) =
      { record := { r with pin_response_text := some text },
        saves := [r], networkCalls := 1, result := .error .indexError } ∧
    r.processed = true ∧ r.succeeded = false ∧ r.pin_response = none ∧
    r.pin_response_text = none := by
  have hr : r.processed = true := by rw [save_ok_shape h4]
  have hsucc : r.succeeded = false := by rw [save_ok_shape h4]; exact h2
  have htext : r.pin_response_text = none := by rw [save_ok_shape h4]; exact h3
  have hresp : r.pin_response = none := by rw [save_ok_shape h4]; exact h6
  have hint : chargeResponseUpdate { r with pin_response_text := some text }
      (some j) =
      .error (.indexError, { r with pin_response_text := some text }) := by
    simp only [chargeResponseUpdate, hkerr, hkmsg, hmsgs]
    rfl
  exact ⟨process_respond_error h1 h4 hint, hr, hsucc, hresp, htext⟩

/-- A gateway error response whose `messages` key maps to an empty list. -/
def jemptymsgs : JVal :=
  .obj [("error", .s "invalid_resource"),
        ("error_description", .s "One or more parameters were invalid"),
        ("messages", .arr [])]

/-- Counterexample to claim C9 as stated: the uncaught `IndexError` does
leave the record persisted with `processed = true`, but the raw response
text was never committed — the only committed row has
`pin_response_text = none` while the text sits only on the in-memory
record. -/
theorem c9_counterexample :
    (process_transaction cfg0 0 baseTxn
      (.respond "rawbody" (some jemptymsgs))).result = .error .indexError ∧
    (process_transaction cfg0 0 baseTxn
      (.respond "rawbody" (some jemptymsgs))).saves = [savedTxn] ∧
    savedTxn.pin_response_text = none ∧
    (process_transaction cfg0 0 baseTxn
      (.respond "rawbody" (some jemptymsgs))).record.pin_response_text =
      some "rawbody" :=
  ⟨rfl, rfl, rfl, rfl⟩

theorem c9_witness :
    process_transaction cfg0 0 baseTxn (.respond "raw9" (some jemptymsgs)) =
      { record := { savedTxn with pin_response_text := some "raw9" },
        saves := [savedTxn], networkCalls := 1,
        result := .error .indexError } ∧
    savedTxn.processed = true ∧ savedTxn.pin_response_text = none :=
  have h := c9_empty_messages_index_error cfg0 0 baseTxn savedTxn "raw9"
    jemptymsgs rfl rfl rfl rfl rfl rfl rfl rfl
  ⟨h.1, h.2.1, h.2.2.2.2⟩
